import Mathlib

/-!
Shallow embedding of `src/appconf.py`: the `AppConf` bootstrapper class that
builds a FastAPI application, attaches CORS middleware, and optionally rewires
the Swagger UI documentation renderer to serve bundled offline assets.

The FastAPI application object is observed through the constructor arguments
`appconf.py` passes to it and the registrations (`add_middleware`, `mount`)
it performs on it; the process-global `applications.get_swagger_ui_html`
slot and the filesystem are modelled as explicit state.
-/

namespace AppConfModel

/-- Python truthiness of an optional string: `None` (absent keyword) and the
empty string are falsy, every other string is truthy. This is the notion the
`all([...])` guard of `configure_swagger_ui` applies to the four asset URLs. -/
def truthy : Option String → Bool
  | none => false
  | some s => s != ""

/-- The arguments recorded when `configure_cors` calls
`self.app.add_middleware(CORSMiddleware, ...)` (src/appconf.py lines 67-73). -/
structure CorsArgs where
  allow_origins : Option (List String)
  allow_credentials : Bool
  allow_methods : List String
  allow_headers : List String
deriving DecidableEq

/-- One `app.mount(path, StaticFiles(directory=dir), name=nm)` registration
(src/appconf.py lines 94-98). The mount path is passed verbatim, so it keeps
the optional type of `self.assets_url`. -/
structure MountEntry where
  path : Option String
  directory : String
  name : String
deriving DecidableEq

/-- The FastAPI application object, as observed through what `appconf.py`
does to it: the four constructor keyword arguments it passes, the middleware
registrations and the static mounts. `middleware` and `mounts` start empty,
the framework default. -/
structure App where
  title : Option String
  version : Option String
  openapi_url : Option String
  docs_url : Option String
  middleware : List CorsArgs
  mounts : List MountEntry
deriving DecidableEq

/-- `FastAPI(title=..., version=..., openapi_url=..., docs_url=...)` as called
by `setup` (src/appconf.py lines 52-57): exactly four keyword arguments, with
framework defaults (no middleware, no mounts) for everything else. -/
def mkFastAPI (title version openapi_url docs_url : Option String) : App :=
  { title := title, version := version, openapi_url := openapi_url,
    docs_url := docs_url, middleware := [], mounts := [] }

/-- The HTML response produced by the framework renderer, observed through the
positional and keyword arguments the renderer received. -/
structure HTMLResponse where
  args : List String
  kwargs : List (String × Option String)
deriving DecidableEq

/-- Environment model of `fastapi.openapi.docs.get_swagger_ui_html` (framework
code, not part of this repository): the response it builds is a function of
the arguments it receives, which is all the wrapper-forwarding claims are
about. -/
def get_swagger_ui_html (args : List String)
    (kwargs : List (String × Option String)) : HTMLResponse :=
  { args := args, kwargs := kwargs }

/-- The three keyword names `_swagger_monkey_patch` adds explicitly
(src/appconf.py lines 113-115). -/
def injectedKeys : List String :=
  ["swagger_favicon_url", "swagger_css_url", "swagger_js_url"]

/-- Whether a caller-supplied keyword list already binds one of the three
injected keyword names. -/
def hasInjectedKey (kwargs : List (String × Option String)) : Bool :=
  kwargs.any (fun kv => injectedKeys.contains kv.1)

/-- `AppConf._swagger_monkey_patch` (src/appconf.py lines 102-116): forwards
`*args, **kwargs` to `get_swagger_ui_html` together with the bootstrapper's
three asset URLs as explicit keyword arguments. Python raises `TypeError` at
the call site when an explicit keyword duplicates one already in `**kwargs`. -/
def monkeyPatchCall (fav css js : Option String) (args : List String)
    (kwargs : List (String × Option String)) : Except String HTMLResponse :=
  if hasInjectedKey kwargs then
    Except.error "TypeError: got multiple values for keyword argument"
  else
    Except.ok (get_swagger_ui_html args
      (kwargs ++ [("swagger_favicon_url", fav), ("swagger_css_url", css),
        ("swagger_js_url", js)]))

/-- The process-global `applications.get_swagger_ui_html` slot: either still
the original framework function, or the monkey-patched wrapper of some
bootstrapper instance, carrying that instance's three asset URLs. -/
inductive SwaggerHtmlFn where
  | original
  | patched (swagger_favicon_url swagger_css_url swagger_js_url : Option String)
deriving DecidableEq

/-- Invoking whatever function currently sits in the global slot. -/
def SwaggerHtmlFn.call : SwaggerHtmlFn → List String →
    List (String × Option String) → Except String HTMLResponse
  | SwaggerHtmlFn.original, args, kwargs =>
      Except.ok (get_swagger_ui_html args kwargs)
  | SwaggerHtmlFn.patched fav css js, args, kwargs =>
      monkeyPatchCall fav css js args kwargs

/-- `os.path.join` for the relative file names used here. -/
def pathJoin (a b : String) : String := a ++ "/" ++ b

/-- The environment: `assetPath` models `fastapi_offline_swagger_ui.__path__[0]`
(the installed offline-assets package directory) and `pathExists` models
`os.path.exists`. -/
structure World where
  assetPath : String
  pathExists : String → Bool

/-- The bundled CSS file checked on line 89/93 of src/appconf.py. -/
def cssFilePath (w : World) : String := pathJoin w.assetPath "swagger-ui.css"

/-- The bundled JS file checked on line 90/93 of src/appconf.py. -/
def jsFilePath (w : World) : String := pathJoin w.assetPath "swagger-ui-bundle.js"

/-- The `AppConf` object (src/appconf.py lines 10-42). `openapi_pfx` models
the `openapi_prefix` attribute (name shortened). Each field holds what
`kwargs.get(...)` returned: `none` when the keyword was absent. -/
structure AppConf where
  title : Option String
  version : Option String
  openapi_pfx : Option String
  assets_url : Option String
  openapi_url : Option String
  docs_url : Option String
  swagger_css_url : Option String
  swagger_js_url : Option String
  swagger_favicon_url : Option String
  origins : Option (List String)
  app : Option App
deriving DecidableEq

/-- `AppConf.__init__` (src/appconf.py lines 29-42): stores each keyword
argument verbatim — no validation and no normalization — and leaves the
`app` attribute unset. -/
def AppConf.init (title version openapi_pfx assets_url openapi_url docs_url
    swagger_css_url swagger_js_url swagger_favicon_url : Option String)
    (origins : Option (List String)) : AppConf :=
  { title := title, version := version, openapi_pfx := openapi_pfx,
    assets_url := assets_url, openapi_url := openapi_url, docs_url := docs_url,
    swagger_css_url := swagger_css_url, swagger_js_url := swagger_js_url,
    swagger_favicon_url := swagger_favicon_url, origins := origins,
    app := none }

/-- `app.add_middleware(...)`: appends the registration to the handle. -/
def addMiddleware (a : App) (m : CorsArgs) : App :=
  { a with middleware := a.middleware ++ [m] }

/-- The `CORSMiddleware` arguments exactly as `configure_cors` passes them
(src/appconf.py lines 67-73): the `origins` field verbatim, credentials
always true, all methods, all headers. -/
def corsArgsOf (origins : Option (List String)) : CorsArgs :=
  { allow_origins := origins, allow_credentials := true,
    allow_methods := ["*"], allow_headers := ["*"] }

/-- `AppConf.configure_cors` (src/appconf.py lines 62-73). `setup` calls it
with `self.app` already set; the registration lands on that handle. -/
def AppConf.configure_cors (c : AppConf) : AppConf :=
  { c with app := c.app.map (fun a => addMiddleware a (corsArgsOf c.origins)) }

/-- The `all([self.assets_url, self.swagger_css_url, self.swagger_js_url,
self.swagger_favicon_url])` guard (src/appconf.py lines 80-87). -/
def assetsConfigured (c : AppConf) : Bool :=
  truthy c.assets_url && truthy c.swagger_css_url &&
    truthy c.swagger_js_url && truthy c.swagger_favicon_url

/-- `self.app.mount(path, StaticFiles(directory=dir), name=nm)`. -/
def mountStatic (a : App) (path : Option String) (dir nm : String) : App :=
  { a with mounts := a.mounts ++ [{ path := path, directory := dir, name := nm }] }

/-- `AppConf.configure_swagger_ui` (src/appconf.py lines 75-100), taking the
filesystem world and the current global renderer slot, and returning the
updated bootstrapper (whose `app` may have gained a mount) and the possibly
overwritten global slot. -/
def AppConf.configure_swagger_ui (c : AppConf) (w : World)
    (g : SwaggerHtmlFn) : AppConf × SwaggerHtmlFn :=
  if assetsConfigured c then
    if w.pathExists (cssFilePath w) && w.pathExists (jsFilePath w) then
      let mounted : Option App :=
        c.app.map (fun a => mountStatic a c.assets_url w.assetPath "assets")
      ({ c with app := mounted },
        SwaggerHtmlFn.patched c.swagger_favicon_url c.swagger_css_url
          c.swagger_js_url)
    else (c, g)
  else (c, g)

/-- A Python object reference, recording which object `setup` returns: the
bootstrapper itself or a FastAPI application instance. -/
inductive PyVal where
  | confV (c : AppConf)
  | appV (a : App)
deriving DecidableEq

/-- Whether a returned value is a FastAPI application instance. -/
def PyVal.isApp : PyVal → Bool
  | PyVal.appV _ => true
  | _ => false

/-- The outcome of `setup`: the final bootstrapper state, the value the
`return` statement produced, and the final global renderer slot. -/
structure SetupState where
  conf : AppConf
  ret : PyVal
  global : SwaggerHtmlFn
deriving DecidableEq

/-- `AppConf.setup` (src/appconf.py lines 44-60): constructs the FastAPI
handle from `title`, `version`, `openapi_url`, `docs_url`, runs
`configure_cors`, then `configure_swagger_ui`, then executes `return self`. -/
def AppConf.setup (c : AppConf) (w : World) (g : SwaggerHtmlFn) : SetupState :=
  let c1 : AppConf :=
    { c with app := some (mkFastAPI c.title c.version c.openapi_url c.docs_url) }
  let c2 := c1.configure_cors
  let p := c2.configure_swagger_ui w g
  { conf := p.1, ret := PyVal.confV p.1, global := p.2 }

/-- The bootstrapper state after `setup` has built the handle and run
`configure_cors`: the fresh FastAPI app carries exactly one middleware
registration, the CORS one. -/
def afterCors (c : AppConf) : AppConf :=
  { c with app := some (addMiddleware
      (mkFastAPI c.title c.version c.openapi_url c.docs_url)
      (corsArgsOf c.origins)) }

/-- The bootstrapper state after `setup` when `configure_swagger_ui` also
performed its mount. -/
def afterMount (c : AppConf) (w : World) : AppConf :=
  { c with app := some (mountStatic
      (addMiddleware (mkFastAPI c.title c.version c.openapi_url c.docs_url)
        (corsArgsOf c.origins))
      c.assets_url w.assetPath "assets") }

/-- Setting the `app` attribute does not change the asset-URL guard. -/
theorem assetsConfigured_set_app (c : AppConf) (x : Option App) :
    assetsConfigured { c with app := x } = assetsConfigured c := rfl

/-- `configure_cors` does not change the asset-URL guard. -/
theorem assetsConfigured_configure_cors (c : AppConf) :
    assetsConfigured c.configure_cors = assetsConfigured c := rfl

/-- When some asset URL is absent or empty, `configure_swagger_ui` returns
its state unchanged. -/
theorem configure_swagger_ui_skip (c : AppConf) (w : World) (g : SwaggerHtmlFn)
    (h : assetsConfigured c = false) :
    c.configure_swagger_ui w g = (c, g) := by
  simp [AppConf.configure_swagger_ui, h]

/-- When a bundled file is missing, `configure_swagger_ui` returns its state
unchanged. -/
theorem configure_swagger_ui_skip_files (c : AppConf) (w : World)
    (g : SwaggerHtmlFn)
    (h : (w.pathExists (cssFilePath w) && w.pathExists (jsFilePath w)) = false) :
    c.configure_swagger_ui w g = (c, g) := by
  unfold AppConf.configure_swagger_ui
  rw [h]
  split <;> rfl

/-- When the guard holds and both bundled files exist, `configure_swagger_ui`
mounts the asset directory on the handle and overwrites the global renderer
slot with the wrapper carrying this instance's three asset URLs. -/
theorem configure_swagger_ui_go (c : AppConf) (w : World) (g : SwaggerHtmlFn)
    (h1 : assetsConfigured c = true)
    (h2 : (w.pathExists (cssFilePath w) && w.pathExists (jsFilePath w)) = true) :
    c.configure_swagger_ui w g =
      ({ c with app := (c.app.map (fun a => mountStatic a c.assets_url w.assetPath "assets")) },
        SwaggerHtmlFn.patched c.swagger_favicon_url c.swagger_css_url
          c.swagger_js_url) := by
  unfold AppConf.configure_swagger_ui
  rw [h1, h2]
  rfl

/-- Closed-form outcome of `setup`: either the full asset configuration
happened (guard true and both files present) or the run stopped after the
CORS registration, leaving the global renderer slot alone. -/
theorem setup_cases (c : AppConf) (w : World) (g : SwaggerHtmlFn) :
    c.setup w g =
      if assetsConfigured c &&
          (w.pathExists (cssFilePath w) && w.pathExists (jsFilePath w)) then
        { conf := afterMount c w, ret := PyVal.confV (afterMount c w),
          global := SwaggerHtmlFn.patched c.swagger_favicon_url
            c.swagger_css_url c.swagger_js_url }
      else
        { conf := afterCors c, ret := PyVal.confV (afterCors c), global := g } := by
  have hac : assetsConfigured (afterCors c) = assetsConfigured c := rfl
  have hsetup : c.setup w g =
      { conf := ((afterCors c).configure_swagger_ui w g).1,
        ret := PyVal.confV ((afterCors c).configure_swagger_ui w g).1,
        global := ((afterCors c).configure_swagger_ui w g).2 } := rfl
  rw [hsetup]
  by_cases hb : assetsConfigured c = true
  · by_cases hf : (w.pathExists (cssFilePath w) && w.pathExists (jsFilePath w)) = true
    · rw [configure_swagger_ui_go (afterCors c) w g (hac.trans hb) hf]
      simp [hb, hf, afterCors, afterMount]
    · rw [configure_swagger_ui_skip_files (afterCors c) w g
        (Bool.eq_false_iff.mpr hf)]
      simp [hb, Bool.eq_false_iff.mpr hf]
  · rw [configure_swagger_ui_skip (afterCors c) w g
      (hac.trans (Bool.eq_false_iff.mpr hb))]
    simp [Bool.eq_false_iff.mpr hb]

/-- A fully configured example bootstrapper, used to instantiate theorems. -/
def cFull : AppConf :=
  AppConf.init (some "API") (some "1.0") (some "/v1") (some "/assets")
    (some "/openapi.json") (some "/docs") (some "/assets/swagger-ui.css")
    (some "/assets/swagger-ui-bundle.js") (some "/assets/favicon.png")
    (some ["https://a.example"])

/-- An example bootstrapper whose assets URL keyword was absent. -/
def cNoAssets : AppConf := { cFull with assets_url := none }

/-- A second fully configured example bootstrapper with different asset URLs. -/
def cOther : AppConf :=
  { cFull with
    swagger_css_url := some "/other/ui.css"
    swagger_js_url := some "/other/ui.js"
    swagger_favicon_url := some "/other/fav.png" }

/-- A world where both bundled Swagger UI files exist. -/
def wBoth : World :=
  { assetPath := "pkg",
    pathExists := fun s =>
      s == "pkg/swagger-ui.css" || s == "pkg/swagger-ui-bundle.js" }

/-- A world where the bundled CSS file is missing from disk. -/
def wNoCss : World :=
  { assetPath := "pkg",
    pathExists := fun s => s == "pkg/swagger-ui-bundle.js" }

/-- C1: whatever the configuration, the filesystem and the global renderer
state, the value the `return` statement of `setup()` produces is the
bootstrapper object itself (`return self`, src/appconf.py line 60) — never a
FastAPI application instance, contradicting the `-> FastAPI` annotation and
the docstring, which promise the configured application instance. -/
theorem setup_returns_bootstrapper_never_app (c : AppConf) (w : World)
    (g : SwaggerHtmlFn) :
    (c.setup w g).ret = PyVal.confV (c.setup w g).conf ∧
      ((c.setup w g).ret).isApp = false :=
  ⟨rfl, rfl⟩

/-- C2: when any of the four asset URLs is absent or empty,
`configure_swagger_ui` changes neither the bootstrapper nor the global
renderer slot and raises nothing; `setup` still completes, its global slot
untouched, with the handle constructed, CORS-configured and mount-free. -/
theorem swagger_assets_noop_when_field_missing (c : AppConf) (w : World)
    (g : SwaggerHtmlFn) (h : assetsConfigured c = false) :
    c.configure_swagger_ui w g = (c, g) ∧
      (c.setup w g).global = g ∧
      (c.setup w g).conf.app =
        some (addMiddleware
          (mkFastAPI c.title c.version c.openapi_url c.docs_url)
          (corsArgsOf c.origins)) ∧
      (addMiddleware (mkFastAPI c.title c.version c.openapi_url c.docs_url)
        (corsArgsOf c.origins)).mounts = [] := by
  have hcases := setup_cases c w g
  rw [h] at hcases
  simp only [Bool.false_and, Bool.false_eq_true, if_false] at hcases
  refine ⟨configure_swagger_ui_skip c w g h, ?_, ?_, rfl⟩
  · rw [hcases]
  · rw [hcases]; rfl

/-- Witness for C2 at a concrete configuration missing its assets URL. -/
theorem swagger_assets_noop_when_field_missing_w :
    cNoAssets.configure_swagger_ui wBoth SwaggerHtmlFn.original =
      (cNoAssets, SwaggerHtmlFn.original) ∧
      (cNoAssets.setup wBoth SwaggerHtmlFn.original).global =
        SwaggerHtmlFn.original ∧
      (cNoAssets.setup wBoth SwaggerHtmlFn.original).conf.app =
        some (addMiddleware
          (mkFastAPI cNoAssets.title cNoAssets.version cNoAssets.openapi_url
            cNoAssets.docs_url)
          (corsArgsOf cNoAssets.origins)) ∧
      (addMiddleware (mkFastAPI cNoAssets.title cNoAssets.version
        cNoAssets.openapi_url cNoAssets.docs_url)
        (corsArgsOf cNoAssets.origins)).mounts = [] :=
  swagger_assets_noop_when_field_missing cNoAssets wBoth SwaggerHtmlFn.original
    (by decide)

/-- C8: construction stores every configuration field verbatim — whatever
string it is, with no validation or normalization — and leaves the `app`
attribute unset until `setup` runs. -/
theorem init_stores_fields_verbatim
    (t v pfx au ou du cs js fav : Option String)
    (og : Option (List String)) :
    (AppConf.init t v pfx au ou du cs js fav og).title = t ∧
      (AppConf.init t v pfx au ou du cs js fav og).version = v ∧
      (AppConf.init t v pfx au ou du cs js fav og).openapi_pfx = pfx ∧
      (AppConf.init t v pfx au ou du cs js fav og).assets_url = au ∧
      (AppConf.init t v pfx au ou du cs js fav og).openapi_url = ou ∧
      (AppConf.init t v pfx au ou du cs js fav og).docs_url = du ∧
      (AppConf.init t v pfx au ou du cs js fav og).swagger_css_url = cs ∧
      (AppConf.init t v pfx au ou du cs js fav og).swagger_js_url = js ∧
      (AppConf.init t v pfx au ou du cs js fav og).swagger_favicon_url = fav ∧
      (AppConf.init t v pfx au ou du cs js fav og).origins = og ∧
      (AppConf.init t v pfx au ou du cs js fav og).app = none :=
  ⟨rfl, rfl, rfl, rfl, rfl, rfl, rfl, rfl, rfl, rfl, rfl⟩

/-- C3: with all four asset URLs present and both bundled files on disk,
`configure_swagger_ui` mounts a static-file server at `assets_url` serving
the offline-assets package directory and overwrites the global renderer slot
with the wrapper; the wrapper forwards every original positional and keyword
argument to the framework renderer together with the three custom asset
URLs. -/
theorem swagger_assets_mount_and_override (c : AppConf) (w : World)
    (g : SwaggerHtmlFn) (args : List String)
    (kwargs : List (String × Option String))
    (h1 : assetsConfigured c = true)
    (h2 : w.pathExists (cssFilePath w) = true)
    (h3 : w.pathExists (jsFilePath w) = true)
    (h4 : hasInjectedKey kwargs = false) :
    c.configure_swagger_ui w g =
      ({ c with app := (c.app.map (fun a => mountStatic a c.assets_url w.assetPath "assets")) },
        SwaggerHtmlFn.patched c.swagger_favicon_url c.swagger_css_url
          c.swagger_js_url) ∧
      (c.configure_swagger_ui w g).2.call args kwargs =
        Except.ok (get_swagger_ui_html args (kwargs ++
          [("swagger_favicon_url", c.swagger_favicon_url),
            ("swagger_css_url", c.swagger_css_url),
            ("swagger_js_url", c.swagger_js_url)])) := by
  have hgo := configure_swagger_ui_go c w g h1 (by rw [h2, h3]; rfl)
  refine ⟨hgo, ?_⟩
  rw [hgo]
  simp [SwaggerHtmlFn.call, monkeyPatchCall, h4]

/-- Witness for C3: a fully configured bootstrapper, both files on disk, and
a renderer call that supplies none of the three injected keywords. -/
theorem swagger_assets_mount_and_override_w :
    cFull.configure_swagger_ui wBoth SwaggerHtmlFn.original =
      ({ cFull with app := (cFull.app.map (fun a => mountStatic a cFull.assets_url wBoth.assetPath "assets")) },
        SwaggerHtmlFn.patched cFull.swagger_favicon_url cFull.swagger_css_url
          cFull.swagger_js_url) ∧
      (cFull.configure_swagger_ui wBoth SwaggerHtmlFn.original).2.call []
        [("title", some "API")] =
        Except.ok (get_swagger_ui_html []
          ([("title", some "API")] ++
            [("swagger_favicon_url", cFull.swagger_favicon_url),
              ("swagger_css_url", cFull.swagger_css_url),
              ("swagger_js_url", cFull.swagger_js_url)])) :=
  swagger_assets_mount_and_override cFull wBoth SwaggerHtmlFn.original []
    [("title", some "API")] (by decide) (by decide) (by decide) (by decide)

/-- C4: with all four asset URLs present but a bundled file missing from
disk, `configure_swagger_ui` is the same silent no-op as in the
missing-field case: state returned unchanged, no mount, no override, no
error. -/
theorem swagger_assets_noop_when_file_missing (c : AppConf) (w : World)
    (g : SwaggerHtmlFn) (_h1 : assetsConfigured c = true)
    (h2 : (w.pathExists (cssFilePath w) && w.pathExists (jsFilePath w)) = false) :
    c.configure_swagger_ui w g = (c, g) :=
  configure_swagger_ui_skip_files c w g h2

/-- Witness for C4: fully configured bootstrapper, CSS file absent. -/
theorem swagger_assets_noop_when_file_missing_w :
    cFull.configure_swagger_ui wNoCss SwaggerHtmlFn.original =
      (cFull, SwaggerHtmlFn.original) :=
  swagger_assets_noop_when_file_missing cFull wNoCss SwaggerHtmlFn.original
    (by decide) (by decide)

/-- C5: on any bootstrapper whose handle is set (as it always is when
`setup` calls it), `configure_cors` registers exactly one CORS middleware on
that handle, passing the `origins` field verbatim as the allowed origins —
so an empty or unset field is simply handed to the framework — with
credentials always allowed, all methods and all headers. -/
theorem cors_registration_params (c : AppConf) (a : App) (h : c.app = some a) :
    c.configure_cors.app = some { a with middleware := a.middleware ++
      [{ allow_origins := c.origins, allow_credentials := true,
         allow_methods := ["*"], allow_headers := ["*"] }] } := by
  simp [AppConf.configure_cors, h, addMiddleware, corsArgsOf]

/-- Witness for C5 on a concrete bootstrapper holding a fresh handle. -/
theorem cors_registration_params_w :
    ({ cFull with app := some (mkFastAPI cFull.title cFull.version cFull.openapi_url cFull.docs_url) } : AppConf).configure_cors.app =
      some { mkFastAPI cFull.title cFull.version cFull.openapi_url cFull.docs_url with
        middleware :=
          (mkFastAPI cFull.title cFull.version cFull.openapi_url cFull.docs_url).middleware ++
            [{ allow_origins := cFull.origins, allow_credentials := true,
               allow_methods := ["*"], allow_headers := ["*"] }] } :=
  cors_registration_params
    ({ cFull with app := some (mkFastAPI cFull.title cFull.version cFull.openapi_url cFull.docs_url) } : AppConf)
    (mkFastAPI cFull.title cFull.version cFull.openapi_url cFull.docs_url) rfl

/-- When the guard holds and both files exist, `setup` leaves the global
renderer slot overwritten with this instance's wrapper, whatever the slot
held before. -/
theorem setup_global_of_configured (c : AppConf) (w : World) (g : SwaggerHtmlFn)
    (h1 : assetsConfigured c = true)
    (h2 : (w.pathExists (cssFilePath w) && w.pathExists (jsFilePath w)) = true) :
    (c.setup w g).global = SwaggerHtmlFn.patched c.swagger_favicon_url
      c.swagger_css_url c.swagger_js_url := by
  rw [setup_cases c w g, if_pos (by rw [h1, h2]; rfl)]

/-- C6: `setup` builds the handle from exactly the config's `title`,
`version`, `openapi_url` and `docs_url` (framework defaults elsewhere), then
applies `configure_cors` and afterwards `configure_swagger_ui` to it, in
that fixed order; consequently the final handle keeps those four constructor
arguments, carries the single CORS registration, and has gained at most the
asset mount. -/
theorem setup_ctor_args_then_cors_then_assets (c : AppConf) (w : World)
    (g : SwaggerHtmlFn) :
    (c.setup w g).conf =
      ((({ c with app := some (mkFastAPI c.title c.version c.openapi_url c.docs_url) } : AppConf).configure_cors).configure_swagger_ui w g).1 ∧
      (c.setup w g).global =
      ((({ c with app := some (mkFastAPI c.title c.version c.openapi_url c.docs_url) } : AppConf).configure_cors).configure_swagger_ui w g).2 ∧
      ∃ a : App, (c.setup w g).conf.app = some a ∧ a.title = c.title ∧
        a.version = c.version ∧ a.openapi_url = c.openapi_url ∧
        a.docs_url = c.docs_url ∧ a.middleware = [corsArgsOf c.origins] ∧
        (a.mounts = [] ∨
          a.mounts = [{ path := c.assets_url, directory := w.assetPath, name := "assets" }]) := by
  refine ⟨rfl, rfl, ?_⟩
  rw [setup_cases c w g]
  by_cases hb : (assetsConfigured c &&
      (w.pathExists (cssFilePath w) && w.pathExists (jsFilePath w))) = true
  · rw [if_pos hb]
    exact ⟨_, rfl, rfl, rfl, rfl, rfl, rfl, Or.inr rfl⟩
  · rw [if_neg hb]
    exact ⟨_, rfl, rfl, rfl, rfl, rfl, rfl, Or.inl rfl⟩

/-- C7: running `setup` on a second, independently configured bootstrapper
after a first one, the second run's override wins whenever it is reached:
the global renderer slot afterwards is the second instance's wrapper with
the second instance's asset URLs, whatever the first run left there. -/
theorem second_setup_override_wins (c1 c2 : AppConf) (w1 w2 : World)
    (g0 : SwaggerHtmlFn)
    (h1 : assetsConfigured c2 = true)
    (h2 : (w2.pathExists (cssFilePath w2) && w2.pathExists (jsFilePath w2)) = true) :
    (c2.setup w2 (c1.setup w1 g0).global).global =
      SwaggerHtmlFn.patched c2.swagger_favicon_url c2.swagger_css_url
        c2.swagger_js_url :=
  setup_global_of_configured c2 w2 (c1.setup w1 g0).global h1 h2

/-- Witness for C7: two fully configured instances with different asset
URLs, run one after the other in the same process. -/
theorem second_setup_override_wins_w :
    (cFull.setup wBoth (cOther.setup wBoth SwaggerHtmlFn.original).global).global =
      SwaggerHtmlFn.patched cFull.swagger_favicon_url cFull.swagger_css_url
        cFull.swagger_js_url :=
  second_setup_override_wins cOther cFull wBoth wBoth SwaggerHtmlFn.original
    (by decide) (by decide)

/-- C9: the monkey-patched wrapper adds the three asset URLs as explicit
keyword arguments unconditionally; a call whose keyword arguments already
bind one of the three names raises the duplicate-keyword `TypeError`, and a
call binding none of them returns exactly the underlying renderer's result
on the original arguments extended with the three URLs. -/
theorem monkey_patch_duplicate_kw_or_forward (fav css js : Option String)
    (args1 args2 : List String)
    (kw1 kw2 : List (String × Option String))
    (h1 : hasInjectedKey kw1 = true) (h2 : hasInjectedKey kw2 = false) :
    monkeyPatchCall fav css js args1 kw1 =
      Except.error "TypeError: got multiple values for keyword argument" ∧
      monkeyPatchCall fav css js args2 kw2 =
        Except.ok (get_swagger_ui_html args2 (kw2 ++
          [("swagger_favicon_url", fav), ("swagger_css_url", css),
            ("swagger_js_url", js)])) := by
  constructor
  · simp [monkeyPatchCall, h1]
  · simp [monkeyPatchCall, h2]

/-- Witness for C9: a call supplying `swagger_css_url` itself, and a call
supplying only an unrelated keyword. -/
theorem monkey_patch_duplicate_kw_or_forward_w :
    monkeyPatchCall (some "/f") (some "/c") (some "/j") []
        [("swagger_css_url", some "/x")] =
      Except.error "TypeError: got multiple values for keyword argument" ∧
      monkeyPatchCall (some "/f") (some "/c") (some "/j") []
          [("openapi_url", some "/o")] =
        Except.ok (get_swagger_ui_html []
          ([("openapi_url", some "/o")] ++
            [("swagger_favicon_url", some "/f"), ("swagger_css_url", some "/c"),
              ("swagger_js_url", some "/j")])) :=
  monkey_patch_duplicate_kw_or_forward (some "/f") (some "/c") (some "/j")
    [] [] [("swagger_css_url", some "/x")] [("openapi_url", some "/o")]
    (by decide) (by decide)

/-- C10: the stored `openapi_prefix` is never read again: two configurations
identical except for it produce the same constructed handle (constructor
arguments, CORS registration and mounts included) and the same final global
renderer slot. -/
theorem openapi_pfx_never_read (c1 c2 : AppConf) (w : World) (g : SwaggerHtmlFn)
    (h : ({ c1 with openapi_pfx := none } : AppConf) =
      ({ c2 with openapi_pfx := none } : AppConf)) :
    (c1.setup w g).conf.app = (c2.setup w g).conf.app ∧
      (c1.setup w g).global = (c2.setup w g).global := by
  obtain ⟨t1, v1, p1, au1, ou1, du1, cs1, js1, fv1, og1, ap1⟩ := c1
  obtain ⟨t2, v2, p2, au2, ou2, du2, cs2, js2, fv2, og2, ap2⟩ := c2
  simp only [AppConf.mk.injEq] at h
  obtain ⟨ht, hv, -, hau, hou, hdu, hcs, hjs, hfv, hog, hap⟩ := h
  subst ht hv hau hou hdu hcs hjs hfv hog hap
  have hsame : (assetsConfigured (AppConf.mk t1 v1 p2 au1 ou1 du1 cs1 js1 fv1 og1 ap1) &&
      (w.pathExists (cssFilePath w) && w.pathExists (jsFilePath w))) =
    (assetsConfigured (AppConf.mk t1 v1 p1 au1 ou1 du1 cs1 js1 fv1 og1 ap1) &&
      (w.pathExists (cssFilePath w) && w.pathExists (jsFilePath w))) := rfl
  rw [setup_cases, setup_cases, hsame]
  by_cases hb : (assetsConfigured (AppConf.mk t1 v1 p1 au1 ou1 du1 cs1 js1 fv1 og1 ap1) &&
      (w.pathExists (cssFilePath w) && w.pathExists (jsFilePath w))) = true
  · rw [if_pos hb, if_pos hb]
    exact ⟨rfl, rfl⟩
  · rw [if_neg hb, if_neg hb]
    exact ⟨rfl, rfl⟩

/-- Witness for C10: two configurations differing only in the stored
schema-path value. -/
theorem openapi_pfx_never_read_w :
    ((cFull.setup wBoth SwaggerHtmlFn.original).conf.app =
      (({ cFull with openapi_pfx := some "/v2" } : AppConf).setup wBoth SwaggerHtmlFn.original).conf.app) ∧
      ((cFull.setup wBoth SwaggerHtmlFn.original).global =
        (({ cFull with openapi_pfx := some "/v2" } : AppConf).setup wBoth SwaggerHtmlFn.original).global) :=
  openapi_pfx_never_read cFull
    ({ cFull with openapi_pfx := some "/v2" } : AppConf) wBoth
    SwaggerHtmlFn.original rfl

end AppConfModel
